import Mathlib

/-!
Verification of `errors.go` (package `errors`).

A shallow embedding of the Go source file `errors.go`: the `ErrorRFC9457`
problem-details struct, its `Error` method, the four status constructors,
`New` and `errorString`.

Conventions of the embedding.

* A Go pointer `*T` is `Ptr T`: either `null` or a reference to a value.
  Reading a field through a pointer is `Ptr.deref`, which raises the run-time
  panic `nilDereference` on `null`.
* A computation that may panic returns `Except Panic _`.
* A Go `string` is a Lean `String`; a Go `int` is an `Int`.
* A value of the interface type `error` is `error`: the nil interface, a
  `*ErrorRFC9457`, a `*errorString` (both possibly nil pointers wrapped in a
  non-nil interface), or a value of a type declared outside the package.
-/

namespace errors

/-- Run-time panics of a Go program. -/
inductive Panic where
  /-- The runtime error "invalid memory address or nil pointer dereference". -/
  | nilDereference
  /-- A panic raised by code outside this package, with its message. -/
  | raised (what : String)
  deriving DecidableEq, Repr

/-- A Go pointer `*α`. -/
inductive Ptr (α : Type) where
  /-- The nil pointer. -/
  | null
  /-- A pointer to an allocated value. -/
  | ref (v : α)
  deriving DecidableEq, Repr

/-- Reading through a pointer: a nil pointer dereference panics. -/
def Ptr.deref {α : Type} : Ptr α → Except Panic α
  | Ptr.null => Except.error Panic.nilDereference
  | Ptr.ref v => Except.ok v

/-! ## The parts of the standard library the file uses -/

namespace http

/-- The constant `http.StatusBadRequest` of `net/http`. -/
def StatusBadRequest : Int := 400

/-- The constant `http.StatusNotFound` of `net/http`. -/
def StatusNotFound : Int := 404

/-- The constant `http.StatusInternalServerError` of `net/http`. -/
def StatusInternalServerError : Int := 500

/-- The constant `http.StatusBadGateway` of `net/http`. -/
def StatusBadGateway : Int := 502

end http

namespace fmt

/-- The `%!(EXTRA string=a, string=b)` suffix `fmt` appends when operands are
left over after the format is exhausted (nothing when none is left). -/
def extraOperands : List String → List Char
  | [] => []
  | a :: rest =>
    "%!(EXTRA ".toList ++ ("string=" ++ a).toList ++
      (rest.map (fun b => (", string=" ++ b).toList)).flatten ++ [')']

/-- The formatting loop of `fmt.Sprintf` on string operands: ordinary
characters are copied, `%%` prints a percent sign, `%s` and `%v` print the next
operand verbatim (`%!s(MISSING)` when none is left), a verb that does not apply
to a string prints `%!c(string=...)`, a trailing `%` prints `%!(NOVERB)`, and
left-over operands are reported at the end. Flags, width, precision and the
verbs `q`, `x`, `X` are outside the modelled fragment. -/
def doPrintf : List Char → List String → List Char
  | [], args => extraOperands args
  | ['%'], args => "%!(NOVERB)".toList ++ extraOperands args
  | '%' :: '%' :: rest, args => '%' :: doPrintf rest args
  | '%' :: c :: rest, [] => "%!".toList ++ c :: "(MISSING)".toList ++ doPrintf rest []
  | '%' :: c :: rest, a :: args =>
    if c = 's' ∨ c = 'v' then a.toList ++ doPrintf rest args
    else "%!".toList ++ c :: "(string=".toList ++ a.toList ++ ')' :: doPrintf rest args
  | c :: rest, args => c :: doPrintf rest args

/-- The function `fmt.Sprintf` applied to a format and string operands. -/
def Sprintf (format : String) (args : List String) : String :=
  String.mk (doPrintf format.toList args)

end fmt

/-! ## The data model -/

/-- The struct `ErrorRFC9457` (errors.go, lines 11-37). -/
structure ErrorRFC9457 where
  /-- Field `Type string` (`Type` is a Lean keyword, hence the underscore). -/
  Type_ : String
  /-- Field `Status int`. -/
  Status : Int
  /-- Field `Title string`. -/
  Title : String
  /-- Field `Detail string`. -/
  Detail : String
  /-- Field `Instance string`. -/
  Instance : String
  deriving DecidableEq, Repr

/-- The struct `errorString` (errors.go, lines 83-85). -/
structure errorString where
  /-- Field `s string`. -/
  s : String
  deriving DecidableEq, Repr

/-- Values of the Go interface type `error`. -/
inductive error where
  /-- The nil interface value. -/
  | nil
  /-- A `*ErrorRFC9457` stored in the interface (the pointer may be nil). -/
  | problem (p : Ptr ErrorRFC9457)
  /-- A `*errorString` stored in the interface (the pointer may be nil). -/
  | str (p : Ptr errorString)
  /-- A value of an error type declared outside this package, given by what
  its `Error` method does: return a message or panic. -/
  | foreign (outcome : Except Panic String)

/-! ## The operations -/

/-- Method `(*ErrorRFC9457).Error` (errors.go, lines 39-45). -/
def ErrorRFC9457.Error (e : Ptr ErrorRFC9457) : Except Panic String :=
  if e = Ptr.null then
    Except.ok "<nil>"
  else do
    let v ← e.deref
    Except.ok (fmt.Sprintf "Error: %s, Title: %s, Detail: %s, Instance: %s"
      [v.Type_, v.Title, v.Detail, v.Instance])

/-- Method `(*errorString).Error` (errors.go, lines 87-89). -/
def errorString.Error (e : Ptr errorString) : Except Panic String := do
  let v ← e.deref
  Except.ok v.s

/-- The call `err.Error()` on an interface value: dynamic dispatch on the
stored type; on the nil interface the call is a nil dereference. -/
def error.Error : error → Except Panic String
  | error.nil => Except.error Panic.nilDereference
  | error.problem p => ErrorRFC9457.Error p
  | error.str p => errorString.Error p
  | error.foreign outcome => outcome

/-- Function `InternalServerError` (errors.go, lines 47-53). -/
def InternalServerError (err : error) (title : String) : Except Panic (Ptr ErrorRFC9457) := do
  let detail ← err.Error
  Except.ok (Ptr.ref
    { Type_ := "", Status := http.StatusInternalServerError, Title := title,
      Detail := detail, Instance := "" })

/-- Function `NotFoundError` (errors.go, lines 55-61). -/
def NotFoundError (err : error) (title : String) : Except Panic (Ptr ErrorRFC9457) := do
  let detail ← err.Error
  Except.ok (Ptr.ref
    { Type_ := "", Status := http.StatusNotFound, Title := title,
      Detail := detail, Instance := "" })

/-- Function `BadRequest` (errors.go, lines 63-69). -/
def BadRequest (err : error) (title : String) : Except Panic (Ptr ErrorRFC9457) := do
  let detail ← err.Error
  Except.ok (Ptr.ref
    { Type_ := "", Status := http.StatusBadRequest, Title := title,
      Detail := detail, Instance := "" })

/-- Function `BadGateway` (errors.go, lines 71-77). -/
def BadGateway (err : error) (title : String) : Except Panic (Ptr ErrorRFC9457) := do
  let detail ← err.Error
  Except.ok (Ptr.ref
    { Type_ := "", Status := http.StatusBadGateway, Title := title,
      Detail := detail, Instance := "" })

/-- Function `New` (errors.go, lines 79-81). -/
def New (text : String) : error :=
  error.str (Ptr.ref { s := text })

/-! ## The struct declaration as data, and how `encoding/json` names its fields -/

namespace reflect

/-- A struct tag in its conventional form: the `key:"value"` pairs, in order. -/
abbrev StructTag := List (String × String)

/-- Method `reflect.StructTag.Get`: the value of the first pair with the key,
the empty string when there is none. -/
def StructTag.Get (tag : StructTag) (key : String) : String :=
  match tag.find? (fun kv => kv.1 = key) with
  | some kv => kv.2
  | none => ""

/-- A field of a struct declaration: its name, its type and its tag. -/
structure StructField where
  /-- The field name. -/
  Name : String
  /-- The field type, as written. -/
  Typ : String
  /-- The field tag. -/
  Tag : StructTag

end reflect

namespace json

/-- The name part of a `json` tag value: what precedes the first comma. -/
def tagName (tag : String) : String :=
  String.mk (tag.toList.takeWhile (fun c => c ≠ ','))

/-- The check `isValidTag` of `encoding/json` (letters and digits are tested on
ASCII). -/
def isValidTag (s : String) : Bool :=
  s ≠ "" && s.toList.all (fun c =>
    "!#$%&()*+-./:;<=>?@[]^_\x7b|\x7d~ ".toList.contains c || c.isAlpha || c.isDigit)

/-- The key under which `encoding/json` serializes a struct field: `none` when
the field is left out (unexported, or tagged `-`), the name part of the `json`
tag when it is a valid name, the Go field name otherwise. -/
def fieldName (f : reflect.StructField) : Option String :=
  if (f.Name.toList.head?.map Char.isUpper) ≠ some true then none
  else
    let tag := f.Tag.Get "json"
    if tag = "-" then none
    else if isValidTag (tagName tag) then some (tagName tag)
    else some f.Name

end json

/-- The field declarations of `ErrorRFC9457` with their tags (errors.go,
lines 16, 21, 26, 31 and 36). -/
def ErrorRFC9457.fields : List reflect.StructField :=
  [ { Name := "Type", Typ := "string", Tag := [("json", "type")] },
    { Name := "Status", Typ := "int", Tag := [("json", "status")] },
    { Name := "Title", Typ := "string", Tag := [("json", "title")] },
    { Name := "Detail", Typ := "string", Tag := [("json", "detail")] },
    { Name := "Instance", Typ := "string", Tag := [("json", "instance")] } ]

/-! ## Helper lemmas -/

/-- The formatting loop on the format of `(*ErrorRFC9457).Error`. -/
theorem doPrintf_error_format (t ti d i : String) :
    fmt.doPrintf "Error: %s, Title: %s, Detail: %s, Instance: %s".toList [t, ti, d, i] =
      "Error: ".toList ++ t.toList ++ ", Title: ".toList ++ ti.toList ++
        ", Detail: ".toList ++ d.toList ++ ", Instance: ".toList ++ i.toList := by
  simp [fmt.doPrintf, fmt.extraOperands]

/-- A nil interface has no message: the call panics. -/
theorem Error_nil : error.Error error.nil = Except.error Panic.nilDereference := rfl

/-! ## The claims -/

/-- Claim C1: for every underlying error `err` and every title, every value
returned by `InternalServerError`, `NotFoundError`, `BadRequest` and
`BadGateway` is a non-null reference whose `Status` is exactly 500, 404, 400
and 502 respectively, and such a value is returned whenever the message
retrieval of `err` returns (as it does only for a non-null `err`). -/
theorem constructors_status (err : error) (title : String) :
    ∀ p ∈ [(InternalServerError, (500 : Int)), (NotFoundError, 404), (BadRequest, 400),
        (BadGateway, 502)],
      (∀ r, p.1 err title = Except.ok r → ∃ v, r = Ptr.ref v ∧ v.Status = p.2) ∧
      (∀ msg, err.Error = Except.ok msg →
        ∃ v, p.1 err title = Except.ok (Ptr.ref v) ∧ v.Status = p.2) := by
  intro p hp
  simp only [List.mem_cons, List.mem_singleton, List.not_mem_nil, or_false] at hp
  rcases hp with rfl | rfl | rfl | rfl <;>
  · cases h : err.Error <;>
    simp [InternalServerError, NotFoundError, BadRequest, BadGateway, h, bind, Except.bind,
      http.StatusInternalServerError, http.StatusNotFound, http.StatusBadRequest,
      http.StatusBadGateway]

/-- Witness of C1 at the error `New "upstream down"` given to `BadGateway`. -/
theorem constructors_status_witness :
    error.Error (New "upstream down") = Except.ok "upstream down" ∧
    ∃ v, BadGateway (New "upstream down") "Bad gateway" = Except.ok (Ptr.ref v) ∧
      v.Status = 502 :=
  ⟨rfl, (constructors_status (New "upstream down") "Bad gateway" (BadGateway, 502)
    (by simp)).2 "upstream down" rfl⟩

/-- Claim C2: for every underlying error `err` and every title, every value
returned by each of the four constructors has as `Detail` the message text of
`err`, verbatim, and as `Title` the given title, verbatim, and such a value is
returned whenever the message retrieval of `err` returns; for instance
`BadRequest` on the message "insufficient funds" and the title "Out of credit"
yields status 400 with that title and detail and empty type and instance. -/
theorem constructors_detail_title (err : error) (title : String) :
    (∀ f ∈ [InternalServerError, NotFoundError, BadRequest, BadGateway],
      (∀ r, f err title = Except.ok r →
        ∃ v, r = Ptr.ref v ∧ err.Error = Except.ok v.Detail ∧ v.Title = title) ∧
      (∀ msg, err.Error = Except.ok msg →
        ∃ v, f err title = Except.ok (Ptr.ref v) ∧ v.Detail = msg ∧ v.Title = title)) ∧
    BadRequest (New "insufficient funds") "Out of credit" =
      Except.ok (Ptr.ref
        { Type_ := "", Status := 400, Title := "Out of credit",
          Detail := "insufficient funds", Instance := "" }) := by
  refine ⟨?_, rfl⟩
  intro f hf
  simp only [List.mem_cons, List.mem_singleton, List.not_mem_nil, or_false] at hf
  rcases hf with rfl | rfl | rfl | rfl <;>
  · cases h : err.Error <;>
    simp [InternalServerError, NotFoundError, BadRequest, BadGateway, h, bind, Except.bind]

/-- Witness of C2 at an error with the empty message given to `NotFoundError`. -/
theorem constructors_detail_title_witness :
    error.Error (New "") = Except.ok "" ∧
    ∃ v, NotFoundError (New "") "Not found" = Except.ok (Ptr.ref v) ∧
      v.Detail = "" ∧ v.Title = "Not found" :=
  ⟨rfl, ((constructors_detail_title (New "") "Not found").1 NotFoundError (by simp)).2 "" rfl⟩

/-- Claim C3: for every underlying error `err` and every title, every value
returned by each of the four constructors has `Type` equal to the empty string
and `Instance` equal to the empty string, and such a value is returned whenever
the message retrieval of `err` returns. -/
theorem constructors_type_instance_empty (err : error) (title : String) :
    ∀ f ∈ [InternalServerError, NotFoundError, BadRequest, BadGateway],
      (∀ r, f err title = Except.ok r → ∃ v, r = Ptr.ref v ∧ v.Type_ = "" ∧ v.Instance = "") ∧
      (∀ msg, err.Error = Except.ok msg →
        ∃ v, f err title = Except.ok (Ptr.ref v) ∧ v.Type_ = "" ∧ v.Instance = "") := by
  intro f hf
  simp only [List.mem_cons, List.mem_singleton, List.not_mem_nil, or_false] at hf
  rcases hf with rfl | rfl | rfl | rfl <;>
  · cases h : err.Error <;>
    simp [InternalServerError, NotFoundError, BadRequest, BadGateway, h, bind, Except.bind]

/-- Witness of C3 at a foreign error given to `InternalServerError`. -/
theorem constructors_type_instance_empty_witness :
    error.Error (error.foreign (Except.ok "disk full")) = Except.ok "disk full" ∧
    ∃ v, InternalServerError (error.foreign (Except.ok "disk full")) "Internal" =
        Except.ok (Ptr.ref v) ∧ v.Type_ = "" ∧ v.Instance = "" :=
  ⟨rfl, (constructors_type_instance_empty (error.foreign (Except.ok "disk full")) "Internal"
    InternalServerError (by simp)).2 "disk full" rfl⟩

/-- Claim C4: for every non-null `ErrorRFC9457` value with fields `Type = T`,
`Title = Ti`, `Detail = D`, `Instance = I` (any strings) and any `Status`, the
`Error` rendering returns exactly
`"Error: " ++ T ++ ", Title: " ++ Ti ++ ", Detail: " ++ D ++ ", Instance: " ++ I`. -/
theorem Error_rendering (T Ti D I : String) (st : Int) :
    ErrorRFC9457.Error
        (Ptr.ref { Type_ := T, Status := st, Title := Ti, Detail := D, Instance := I }) =
      Except.ok ("Error: " ++ T ++ ", Title: " ++ Ti ++ ", Detail: " ++ D ++
        ", Instance: " ++ I) := by
  simp only [ErrorRFC9457.Error, Ptr.deref, fmt.Sprintf, doPrintf_error_format, bind,
    Except.bind, reduceCtorEq, if_false]
  rfl

/-- Claim C5: `Error` on a null `ErrorRFC9457` reference does not fail and
returns exactly "<nil>", and `Error` is total: it returns a string for every
receiver, null or not. -/
theorem Error_nil_receiver_total :
    ErrorRFC9457.Error Ptr.null = Except.ok "<nil>" ∧
    ∀ e : Ptr ErrorRFC9457, ∃ s, ErrorRFC9457.Error e = Except.ok s := by
  refine ⟨rfl, ?_⟩
  intro e
  cases e with
  | null => exact ⟨"<nil>", rfl⟩
  | ref v => exact ⟨_, by simp [ErrorRFC9457.Error, Ptr.deref, bind, Except.bind]; rfl⟩

/-- Claim C6: for every string `text` (the empty string included), `New text`
is a non-null error value whose `Error` rendering returns exactly `text`; in
particular `New "boom"` renders "boom". -/
theorem New_renders_text (text : String) :
    New text ≠ error.nil ∧ (New text).Error = Except.ok text ∧
    (New "boom").Error = Except.ok "boom" ∧ (New "").Error = Except.ok "" := by
  refine ⟨?_, rfl, rfl, rfl⟩
  intro h
  cases h

/-- Claim C7, evaluated on the code: `InternalServerError`, `NotFoundError`,
`BadRequest` and `BadGateway` applied to `New "boom"` and the title
"Internal error" return a value whose `Type` is the empty string, which is not
"about:blank". -/
theorem Type_not_defaulted :
    (∃ v, InternalServerError (New "boom") "Internal error" = Except.ok (Ptr.ref v) ∧
      v.Type_ = "" ∧ v.Type_ ≠ "about:blank") ∧
    (∃ v, NotFoundError (New "boom") "Internal error" = Except.ok (Ptr.ref v) ∧
      v.Type_ = "" ∧ v.Type_ ≠ "about:blank") ∧
    (∃ v, BadRequest (New "boom") "Internal error" = Except.ok (Ptr.ref v) ∧
      v.Type_ = "" ∧ v.Type_ ≠ "about:blank") ∧
    (∃ v, BadGateway (New "boom") "Internal error" = Except.ok (Ptr.ref v) ∧
      v.Type_ = "" ∧ v.Type_ ≠ "about:blank") :=
  ⟨⟨_, rfl, rfl, by decide⟩, ⟨_, rfl, rfl, by decide⟩, ⟨_, rfl, rfl, by decide⟩,
    ⟨_, rfl, rfl, by decide⟩⟩

/-- Claim C8: each of the four constructors fails with a nil dereference
instead of returning a value when the underlying error is null, and for every
non-null underlying error whose message retrieval returns, and every title, it
does not fail and returns a non-null constructed value. -/
theorem constructors_fail_only_without_message (title : String) :
    ∀ f ∈ [InternalServerError, NotFoundError, BadRequest, BadGateway],
      f error.nil title = Except.error Panic.nilDereference ∧
      ∀ err msg, err ≠ error.nil → err.Error = Except.ok msg →
        ∃ v, f err title = Except.ok (Ptr.ref v) := by
  intro f hf
  simp only [List.mem_cons, List.mem_singleton, List.not_mem_nil, or_false] at hf
  rcases hf with rfl | rfl | rfl | rfl <;>
  · refine ⟨rfl, ?_⟩
    intro err msg _ h
    simp [InternalServerError, NotFoundError, BadRequest, BadGateway, h, bind, Except.bind]

/-- Witness of C8 at `BadRequest`, on the null error and on `New "boom"`. -/
theorem constructors_fail_only_without_message_witness :
    BadRequest error.nil "Bad request" = Except.error Panic.nilDereference ∧
    New "boom" ≠ error.nil ∧ error.Error (New "boom") = Except.ok "boom" ∧
    ∃ v, BadRequest (New "boom") "Bad request" = Except.ok (Ptr.ref v) :=
  have h := constructors_fail_only_without_message "Bad request" BadRequest (by simp)
  ⟨h.1, by simp [New], rfl, h.2 (New "boom") "boom" (by simp [New]) rfl⟩

/-- Claim C9: the four error classes are distinguished only by the status code:
for every underlying error `err` and every title, the values returned by any
two different constructors among `InternalServerError`, `NotFoundError`,
`BadRequest` and `BadGateway` have different `Status` values and are equal in
`Type`, `Title`, `Detail` and `Instance`, and both constructors do return a
value whenever the message retrieval of `err` returns. -/
theorem constructors_differ_only_in_status (err : error) (title : String) :
    List.Pairwise
      (fun f g =>
        (∀ a b, f err title = Except.ok (Ptr.ref a) → g err title = Except.ok (Ptr.ref b) →
          a.Status ≠ b.Status ∧ a.Type_ = b.Type_ ∧ a.Title = b.Title ∧
            a.Detail = b.Detail ∧ a.Instance = b.Instance) ∧
        (∀ msg, err.Error = Except.ok msg →
          ∃ a b, f err title = Except.ok (Ptr.ref a) ∧ g err title = Except.ok (Ptr.ref b)))
      [InternalServerError, NotFoundError, BadRequest, BadGateway] := by
  cases h : err.Error <;>
  simp [InternalServerError, NotFoundError, BadRequest, BadGateway, h, bind, Except.bind,
    http.StatusInternalServerError, http.StatusNotFound, http.StatusBadRequest,
    http.StatusBadGateway]

/-- Witness of C9 at `InternalServerError` and `BadGateway` on `New "boom"`. -/
theorem constructors_differ_only_in_status_witness :
    ∃ a b, InternalServerError (New "boom") "Oops" = Except.ok (Ptr.ref a) ∧
      BadGateway (New "boom") "Oops" = Except.ok (Ptr.ref b) ∧
      a.Status ≠ b.Status ∧ a.Type_ = b.Type_ ∧ a.Title = b.Title ∧
      a.Detail = b.Detail ∧ a.Instance = b.Instance := by
  have h := List.rel_of_pairwise_cons
    (constructors_differ_only_in_status (New "boom") "Oops")
    (List.mem_cons_of_mem _ (List.mem_cons_of_mem _ (List.mem_singleton.mpr rfl)))
  obtain ⟨a, b, ha, hb⟩ := h.2 "boom" rfl
  exact ⟨a, b, ha, hb, h.1 a b ha hb⟩

/-- Claim C10: the serialized field names of `ErrorRFC9457` are exactly "type",
"status", "title", "detail" and "instance", for the fields `Type`, `Status`,
`Title`, `Detail` and `Instance` respectively; they are pairwise distinct and
the struct has no other field. -/
theorem serialized_field_names :
    ErrorRFC9457.fields.map (fun f => (f.Name, json.fieldName f)) =
      [("Type", some "type"), ("Status", some "status"), ("Title", some "title"),
       ("Detail", some "detail"), ("Instance", some "instance")] ∧
    (ErrorRFC9457.fields.map json.fieldName).Nodup ∧
    ErrorRFC9457.fields.length = 5 := by
  decide

/-! ## Rendering of constructed values, determinism and nesting -/

/-- The rendering of a non-null value, as a concatenation. -/
theorem Error_ref (e : ErrorRFC9457) :
    ErrorRFC9457.Error (Ptr.ref e) =
      Except.ok ("Error: " ++ e.Type_ ++ ", Title: " ++ e.Title ++ ", Detail: " ++ e.Detail ++
        ", Instance: " ++ e.Instance) := by
  simp only [ErrorRFC9457.Error, Ptr.deref, fmt.Sprintf, doPrintf_error_format, bind,
    Except.bind, reduceCtorEq, if_false]
  rfl

/-- The rendering of a value whose `Type` and `Instance` are empty. -/
theorem Error_ref_empty (st : Int) (title detail : String) :
    ErrorRFC9457.Error
        (Ptr.ref { Type_ := "", Status := st, Title := title, Detail := detail, Instance := "" }) =
      Except.ok ("Error: , Title: " ++ title ++ ", Detail: " ++ detail ++ ", Instance: ") := by
  rw [Error_ref]
  congr 1
  apply String.ext
  simp

/-- Claim C11: construction is deterministic: for each of the four
constructors, two calls whose underlying errors have the same message and
whose titles are the same return two values with identical `Type`, `Status`,
`Title`, `Detail` and `Instance`; and two calls of `New` with the same text
return two values holding the same message. -/
theorem construction_deterministic (e1 e2 : error) (title msg : String)
    (h1 : e1.Error = Except.ok msg) (h2 : e2.Error = Except.ok msg) :
    (∀ f ∈ [InternalServerError, NotFoundError, BadRequest, BadGateway],
      ∃ a b, f e1 title = Except.ok (Ptr.ref a) ∧ f e2 title = Except.ok (Ptr.ref b) ∧
        a.Type_ = b.Type_ ∧ a.Status = b.Status ∧ a.Title = b.Title ∧
        a.Detail = b.Detail ∧ a.Instance = b.Instance) ∧
    (∀ t1 t2 : String, t1 = t2 →
      ∃ p q, New t1 = error.str (Ptr.ref p) ∧ New t2 = error.str (Ptr.ref q) ∧ p.s = q.s ∧
        (New t1).Error = (New t2).Error) := by
  constructor
  · intro f hf
    simp only [List.mem_cons, List.mem_singleton, List.not_mem_nil, or_false] at hf
    rcases hf with rfl | rfl | rfl | rfl <;>
    simp [InternalServerError, NotFoundError, BadRequest, BadGateway, h1, h2, bind, Except.bind]
  · rintro t1 t2 rfl
    exact ⟨_, _, rfl, rfl, rfl, rfl⟩

/-- Witness of C11: `New "boom"` and a foreign error with the message "boom"
given to `NotFoundError` under the same title. -/
theorem construction_deterministic_witness :
    error.Error (New "boom") = Except.ok "boom" ∧
    error.Error (error.foreign (Except.ok "boom")) = Except.ok "boom" ∧
    ∃ a b, NotFoundError (New "boom") "Not found" = Except.ok (Ptr.ref a) ∧
      NotFoundError (error.foreign (Except.ok "boom")) "Not found" = Except.ok (Ptr.ref b) ∧
      a.Type_ = b.Type_ ∧ a.Status = b.Status ∧ a.Title = b.Title ∧
      a.Detail = b.Detail ∧ a.Instance = b.Instance :=
  ⟨rfl, rfl, (construction_deterministic (New "boom") (error.foreign (Except.ok "boom"))
    "Not found" "boom" rfl rfl).1 NotFoundError (by simp)⟩

/-- Claim C12: the `Error` rendering does not depend on `Status`: two non-null
values that agree on `Type`, `Title`, `Detail` and `Instance` render to the
same string; and for every underlying error `err` and every title, every value
returned by each of the four constructors renders to
`"Error: , Title: " ++ title ++ ", Detail: " ++ msg ++ ", Instance: "` with
`msg` the message of `err`, such a value being returned whenever the message
retrieval of `err` returns. -/
theorem rendering_ignores_Status (err : error) (title : String) :
    (∀ a b : ErrorRFC9457, a.Type_ = b.Type_ → a.Title = b.Title → a.Detail = b.Detail →
      a.Instance = b.Instance →
      ErrorRFC9457.Error (Ptr.ref a) = ErrorRFC9457.Error (Ptr.ref b)) ∧
    (∀ f ∈ [InternalServerError, NotFoundError, BadRequest, BadGateway],
      (∀ r, f err title = Except.ok r →
        ∃ msg, err.Error = Except.ok msg ∧
          ErrorRFC9457.Error r =
            Except.ok ("Error: , Title: " ++ title ++ ", Detail: " ++ msg ++ ", Instance: ")) ∧
      (∀ msg, err.Error = Except.ok msg →
        ∃ r, f err title = Except.ok r ∧
          ErrorRFC9457.Error r =
            Except.ok ("Error: , Title: " ++ title ++ ", Detail: " ++ msg ++ ", Instance: "))) := by
  constructor
  · intro a b hT hTi hD hI
    rw [Error_ref, Error_ref, hT, hTi, hD, hI]
  · intro f hf
    simp only [List.mem_cons, List.mem_singleton, List.not_mem_nil, or_false] at hf
    rcases hf with rfl | rfl | rfl | rfl <;>
    · cases h : err.Error <;>
      simp [InternalServerError, NotFoundError, BadRequest, BadGateway, h, bind, Except.bind,
        Error_ref_empty]

/-- Witness of C12: values of status 400 and 502 with the same text fields,
and `BadGateway` on `New "boom"`. -/
theorem rendering_ignores_Status_witness :
    ErrorRFC9457.Error
        (Ptr.ref { Type_ := "t", Status := 400, Title := "x", Detail := "d", Instance := "i" }) =
      ErrorRFC9457.Error
        (Ptr.ref { Type_ := "t", Status := 502, Title := "x", Detail := "d", Instance := "i" }) ∧
    ∃ r, BadGateway (New "boom") "Oops" = Except.ok r ∧
      ErrorRFC9457.Error r = Except.ok "Error: , Title: Oops, Detail: boom, Instance: " :=
  ⟨(rendering_ignores_Status (New "boom") "Oops").1 _ _ rfl rfl rfl rfl,
    ((rendering_ignores_Status (New "boom") "Oops").2 BadGateway (by simp)).2 "boom" rfl⟩

/-- Claim C13: the `Error` rendering is not injective on the text fields: the
non-null values with `Type = "a, Title: b"`, `Title = "c"` and with
`Type = "a"`, `Title = "b, Title: c"`, of the same `Status`, `Detail` and
`Instance`, differ in `Type` and `Title` and render to the same string; hence
no function recovers the four text fields from the rendered string. -/
theorem rendering_not_injective :
    (∃ a b : ErrorRFC9457,
      a = { Type_ := "a, Title: b", Status := 400, Title := "c", Detail := "d", Instance := "i" } ∧
      b = { Type_ := "a", Status := 400, Title := "b, Title: c", Detail := "d", Instance := "i" } ∧
      a.Status = b.Status ∧ a.Type_ ≠ b.Type_ ∧ a.Title ≠ b.Title ∧
      ErrorRFC9457.Error (Ptr.ref a) =
        Except.ok "Error: a, Title: b, Title: c, Detail: d, Instance: i" ∧
      ErrorRFC9457.Error (Ptr.ref b) =
        Except.ok "Error: a, Title: b, Title: c, Detail: d, Instance: i") ∧
    ¬ ∃ recover : String → String × String × String × String,
      ∀ (e : ErrorRFC9457) (s : String), ErrorRFC9457.Error (Ptr.ref e) = Except.ok s →
        recover s = (e.Type_, e.Title, e.Detail, e.Instance) := by
  constructor
  · exact ⟨_, _, rfl, rfl, rfl, by decide, by decide, rfl, rfl⟩
  · rintro ⟨recover, h⟩
    have ha := h
      { Type_ := "a, Title: b", Status := 400, Title := "c", Detail := "d", Instance := "i" }
      "Error: a, Title: b, Title: c, Detail: d, Instance: i" rfl
    have hb := h
      { Type_ := "a", Status := 400, Title := "b, Title: c", Detail := "d", Instance := "i" }
      "Error: a, Title: b, Title: c, Detail: d, Instance: i" rfl
    rw [ha] at hb
    revert hb
    decide

/-- Claim C14: a problem-details value can be the underlying error of a
constructor: for every non-null value `e` and every title, each of the four
constructors applied to `e` wrapped as an error returns a value whose `Detail`
is the rendering of `e`, that is
`"Error: " ++ e.Type ++ ", Title: " ++ e.Title ++ ", Detail: " ++ e.Detail ++ ", Instance: " ++ e.Instance`;
and applied to a null `ErrorRFC9457` reference wrapped as an error it does not
fail and returns a value whose `Detail` is exactly "<nil>". -/
theorem problem_as_underlying_error (e : ErrorRFC9457) (title : String) :
    ∀ f ∈ [InternalServerError, NotFoundError, BadRequest, BadGateway],
      (∃ v, f (error.problem (Ptr.ref e)) title = Except.ok (Ptr.ref v) ∧
        ErrorRFC9457.Error (Ptr.ref e) = Except.ok v.Detail ∧
        v.Detail = "Error: " ++ e.Type_ ++ ", Title: " ++ e.Title ++ ", Detail: " ++ e.Detail ++
          ", Instance: " ++ e.Instance) ∧
      (∃ v, f (error.problem Ptr.null) title = Except.ok (Ptr.ref v) ∧ v.Detail = "<nil>") := by
  intro f hf
  simp only [List.mem_cons, List.mem_singleton, List.not_mem_nil, or_false] at hf
  rcases hf with rfl | rfl | rfl | rfl <;>
  · constructor
    · simp [InternalServerError, NotFoundError, BadRequest, BadGateway, error.Error, Error_ref,
        bind, Except.bind]
    · exact ⟨_, rfl, rfl⟩

/-- Witness of C14: `BadRequest` on a not-found value wrapped as an error. -/
theorem problem_as_underlying_error_witness :
    ∃ v, BadRequest (error.problem (Ptr.ref
          { Type_ := "t", Status := 404, Title := "Not found", Detail := "no row",
            Instance := "/x" })) "Bad request" = Except.ok (Ptr.ref v) ∧
      v.Detail = "Error: t, Title: Not found, Detail: no row, Instance: /x" :=
  have h := (problem_as_underlying_error
    { Type_ := "t", Status := 404, Title := "Not found", Detail := "no row", Instance := "/x" }
    "Bad request" BadRequest (by simp)).1
  h.elim fun v hv => ⟨v, hv.1, hv.2.2⟩

end errors
